import Mathlib

/-!
Shallow embedding of the two programs of the repository
`garmin-run-gsheets-sync` — `sync_garmin.py` (the ingestion engine) and
`dashboard.py` (the rollup engine) — together with theorems settling the
spec's claims about them.

Modelling conventions:
* Python floats are modelled as exact rationals (`ℚ`); `round(x, n)` is
  modelled as round-half-to-even on the exact rational value (`pyRound`),
  matching Python's rounding rule on exact values.  None of the claims'
  inputs produce ties or float-representation artefacts.
* Spreadsheet cells are either strings or numbers (`Cell`); a sheet is a
  list of rows, each a list of cells, in order.
* A fetched activity is a record of the fields the code reads; missing
  optional keys are `Option`/zero defaults exactly as the `.get` calls
  default them.  An exception raised while extracting the metric fields of
  one activity (lines 127–153 of `sync_garmin.py`, caught at line 160) is
  modelled by the flag `extractRaises`.
* The store read failure caught at `sync_garmin.py` lines 110–112 is
  modelled by the boolean parameter `readOk` of `sync_garmin.main`.
-/

attribute [local semireducible] Rat.mul Rat.add Rat.inv Rat.sub

/-- Floor of a rational, computably (`Int.fdiv` is floor division). -/
def qfloor (q : ℚ) : ℤ := Int.fdiv q.num q.den

/-- Truncation of a rational toward zero, as Python's `int(float(x))`. -/
def qtrunc (q : ℚ) : ℤ := Int.tdiv q.num q.den

/-- Python's `round` to the nearest integer: half-to-even on the exact value. -/
def pyRoundInt (q : ℚ) : ℤ :=
  let f := qfloor q
  if q - f = 1/2 then (if 2 ∣ f then f else f + 1) else qfloor (q + 1/2)

/-- Python's `round(x, 2)` on the exact rational value. -/
def pyRound2 (q : ℚ) : ℚ := (pyRoundInt (q * 100) : ℚ) / 100

/-- Python's `round(x, 1)` on the exact rational value. -/
def pyRound1 (q : ℚ) : ℚ := (pyRoundInt (q * 10) : ℚ) / 10

/-- Python's `str.lower`, as a character map (the kind keys are ASCII). -/
def strLower (s : String) : String := ⟨s.data.map Char.toLower⟩

/-- A spreadsheet cell: the values the scripts read and write are strings
or numbers. -/
inductive Cell where
  | str : String → Cell
  | num : ℚ → Cell
deriving DecidableEq

/-- The string a cell comes back as from `get_all_values` (the sheet API
returns every cell as a string; rows written by the engine carry strings
in the columns the engine later reads back). -/
def cellStr : Cell → String
  | .str s => s
  | .num q => toString q

namespace sync_garmin

/-- One activity as fetched from the source, with exactly the fields
`sync_garmin.py` reads.  `none` models an absent key (the code supplies
`.get` defaults); numeric fields absent or `None` are modelled as `0`,
matching the `.get(…, 0)` / `or 0` defaulting.  `extractRaises` models an
exception raised while extracting the metric fields (caught per activity
at line 160). -/
structure Activity where
  startTimeLocal : String
  activityName : Option String
  typeKey : Option String
  distance : ℚ
  duration : ℚ
  averageHR : ℚ
  maxHR : ℚ
  calories : ℚ
  averageRunningCadenceInStepsPerMinute : ℚ
  elevationGain : ℚ
  extractRaises : Bool
deriving DecidableEq

/-- Lines 17–19: convert seconds to minutes rounded to 2 decimals,
`0` when `seconds` is falsy. -/
def format_duration (seconds : ℚ) : ℚ :=
  if seconds = 0 then 0 else pyRound2 (seconds / 60)

/-- Lines 21–27: pace in min/km, rounded to 2 decimals; `0` when distance
or duration is falsy. -/
def format_pace (distance_meters duration_seconds : ℚ) : ℚ :=
  if distance_meters = 0 ∨ duration_seconds = 0 then 0
  else
    let distance_km := distance_meters / 1000
    let pace_seconds := duration_seconds / distance_km
    pyRound2 (pace_seconds / 60)

/-- Line 119: `activity.get('startTimeLocal', '')[:10]`. -/
def activityDate (a : Activity) : String := a.startTimeLocal.take 10

/-- Line 74: the filter keeps only the three running type keys,
compared lower-cased. -/
def running_types : List String := ["running", "treadmill_running", "trail_running"]

/-- Lines 72–75: membership test of the lower-cased `typeKey`
(default `''`) in `running_types`. -/
def isRunningActivity (a : Activity) : Bool :=
  running_types.contains (strLower (a.typeKey.getD ""))

/-- Lines 127–153: the row assembled for one activity, in column order
date, name, km, minutes, pace, avg HR, max HR, calories, cadence,
elevation gain, type. -/
def mkRow (a : Activity) : List Cell :=
  [ .str (activityDate a),
    .str (a.activityName.getD "Run"),
    .num (if a.distance = 0 then 0 else pyRound2 (a.distance / 1000)),
    .num (format_duration a.duration),
    .num (format_pace a.distance a.duration),
    .num a.averageHR,
    .num a.maxHR,
    .num a.calories,
    .num a.averageRunningCadenceInStepsPerMinute,
    .num (if a.elevationGain = 0 then 0 else pyRound1 a.elevationGain),
    .str (a.typeKey.getD "running") ]

/-- Lines 106–108: the date a stored row contributes to the dedup set —
its first cell, when the row is nonempty and the cell is truthy
(a nonempty string, as `get_all_values` returns strings). -/
def rowDate (row : List Cell) : Option String :=
  match row with
  | [] => none
  | c :: _ => if cellStr c = "" then none else some (cellStr c)

/-- Lines 101–109: the dedup index — first-column values of every row
past the header row.  (The `len > 1` guard of line 105 is equivalent to
dropping one row: when the sheet has at most one row nothing is
collected either way.) -/
def existing_dates (data : List (List Cell)) : List String :=
  (data.drop 1).filterMap rowDate

/-- The result of one ingestion run: the sheet after the run, the
`new_entries` counter, and the activities whose extraction raised
(logged at line 161). -/
structure SyncResult where
  sheet : List (List Cell)
  new_entries : ℕ
  errors : List Activity
deriving DecidableEq

/-- Lines 116–162: the per-activity loop.  `dates` is the dedup index
loaded once before the loop and never extended inside it; a duplicate
date is skipped (line 122–124), an extraction failure is logged and the
loop continues (160–162), otherwise the row is appended and the counter
incremented (156–158). -/
def processActivities (dates : List String) (sheet : List (List Cell)) (n : ℕ)
    (errs : List Activity) : List Activity → SyncResult
  | [] => ⟨sheet, n, errs⟩
  | a :: rest =>
    if activityDate a ∈ dates then
      processActivities dates sheet n errs rest
    else if a.extractRaises then
      processActivities dates sheet n (errs ++ [a]) rest
    else
      processActivities dates (sheet ++ [mkRow a]) (n + 1) errs rest

/-- Lines 62–167 of `main` from the fetch on: filter to running
activities (72–75), return with nothing appended when none remain
(79–81), load the dedup index — or default it to empty when the store
read fails, lines 110–112, selected here by `readOk` — and run the
per-activity loop. -/
def main (sheet : List (List Cell)) (activities : List Activity)
    (readOk : Bool) : SyncResult :=
  let running_activities := activities.filter isRunningActivity
  if running_activities.isEmpty then ⟨sheet, 0, []⟩
  else
    let dates := if readOk then existing_dates sheet else []
    processActivities dates sheet 0 [] running_activities

/-- An activity survives the loop to be appended: not a duplicate date
and extraction does not raise. -/
def keepB (dates : List String) (a : Activity) : Bool :=
  !decide (activityDate a ∈ dates) && !a.extractRaises

/-- An activity reaches extraction (not a duplicate) and raises there. -/
def errB (dates : List String) (a : Activity) : Bool :=
  !decide (activityDate a ∈ dates) && a.extractRaises

theorem processActivities_eq (dates : List String) (acts : List Activity) :
    ∀ (sheet : List (List Cell)) (n : ℕ) (errs : List Activity),
    processActivities dates sheet n errs acts =
      ⟨sheet ++ (acts.filter (keepB dates)).map mkRow,
       n + (acts.filter (keepB dates)).length,
       errs ++ acts.filter (errB dates)⟩ := by
  induction acts with
  | nil => intro sheet n errs; simp [processActivities]
  | cons a rest ih =>
    intro sheet n errs
    by_cases hdup : activityDate a ∈ dates
    · have hk : keepB dates a = false := by simp [keepB, hdup]
      have he : errB dates a = false := by simp [errB, hdup]
      simp [processActivities, hdup, ih, List.filter_cons, hk, he]
    · by_cases hraise : a.extractRaises
      · have hk : keepB dates a = false := by simp [keepB, hraise]
        have he : errB dates a = true := by simp [errB, hdup, hraise]
        simp [processActivities, hdup, hraise, ih, List.filter_cons, hk, he]
      · have hk : keepB dates a = true := by simp [keepB, hdup, hraise]
        have he : errB dates a = false := by simp [errB, hraise]
        simp [processActivities, hdup, hraise, ih, List.filter_cons, hk, he,
          Nat.add_comm, Nat.add_assoc, Nat.add_left_comm]

theorem main_eq (sheet : List (List Cell)) (acts : List Activity) (readOk : Bool)
    (h : acts.filter isRunningActivity ≠ []) :
    main sheet acts readOk =
      let dates := if readOk then existing_dates sheet else []
      let running := acts.filter isRunningActivity
      ⟨sheet ++ (running.filter (keepB dates)).map mkRow,
       (running.filter (keepB dates)).length,
       running.filter (errB dates)⟩ := by
  simp only [main, List.isEmpty_iff, h, if_false, processActivities_eq,
    List.nil_append, Nat.zero_add]

end sync_garmin

namespace dashboard

/-- Lines 25–41 of `dashboard.py`: the static kind-to-family mapping. -/
def CATEGORY_MAP : List (String × String) :=
  [("cycling", "Cycling"), ("road_biking", "Cycling"), ("gravel_cycling", "Cycling"),
   ("virtual_ride", "Cycling"), ("mountain_biking", "Cycling"),
   ("running", "Running"), ("street_running", "Running"), ("trail_running", "Running"),
   ("track_running", "Running"),
   ("lap_swimming", "Swimming"), ("open_water_swimming", "Swimming"), ("swimming", "Swimming"),
   ("hiking", "Hiking/Walking"), ("walking", "Hiking/Walking"),
   ("strength_training", "Fitness/Indoor"), ("indoor_cardio", "Fitness/Indoor"),
   ("pilates", "Fitness/Indoor"), ("mobility", "Fitness/Indoor"), ("yoga", "Fitness/Indoor"),
   ("backcountry_skiing", "Skiing"), ("resort_skiing", "Skiing"), ("nordic_skiing", "Skiing")]

/-- Line 63: `CATEGORY_MAP.get(str(x).lower(), 'Other')`. -/
def categorize (kind : String) : String :=
  (CATEGORY_MAP.lookup (strLower kind)).getD "Other"

/-- One record of the main sheet as `get_all_records` returns it: the four
columns the dashboard script reads.  `km` and `HM` may come back as
numbers or strings; `Datum` and `Typ` are read as strings. -/
structure Rec where
  Datum : String
  km : Cell
  HM : Cell
  Typ : String
deriving DecidableEq

/-- Numeric value of a digit character. -/
def charDigit (c : Char) : ℕ := c.toNat - 48

/-- Value of a nonempty all-digit character list. -/
def digitsToNat (cs : List Char) : Option ℕ :=
  if cs.isEmpty then none
  else cs.foldl (fun acc c =>
    acc.bind fun n => if c.isDigit then some (10 * n + charDigit c) else none) (some 0)

/-- Modelled from the spec: line 54's `pd.to_datetime(df['Datum'],
errors='coerce')` followed by `.dt.year` is an external pandas call; it is
modelled here restricted to the ISO `YYYY-MM-DD` date strings this
pipeline writes — such a string parses to its year, anything else is
unparseable (`none`, i.e. pandas `NaT`, dropped at line 55). -/
def parseYear (s : String) : Option ℤ :=
  match s.data with
  | y1 :: y2 :: y3 :: y4 :: '-' :: m1 :: m2 :: '-' :: d1 :: d2 :: [] =>
    if y1.isDigit && y2.isDigit && y3.isDigit && y4.isDigit &&
       m1.isDigit && m2.isDigit && d1.isDigit && d2.isDigit then
      let m := 10 * charDigit m1 + charDigit m2
      let d := 10 * charDigit d1 + charDigit d2
      if 1 ≤ m ∧ m ≤ 12 ∧ 1 ≤ d ∧ d ≤ 31 then
        some ((1000 * charDigit y1 + 100 * charDigit y2 + 10 * charDigit y3 + charDigit y4 : ℕ) : ℤ)
      else none
    else none
  | _ => none

/-- Modelled from the spec: lines 59–60's `pd.to_numeric(…,
errors='coerce')` on a string cell is an external pandas call, modelled as
parsing an optionally signed decimal literal; anything else is `NaN`
(`none`, turned into 0 by `.fillna(0)`). -/
def parseDecimal (s : String) : Option ℚ :=
  let core (t : String) : Option ℚ :=
    match t.splitOn "." with
    | [i] => (digitsToNat i.data).map (fun n => (n : ℚ))
    | [i, f] =>
      match digitsToNat i.data, digitsToNat f.data with
      | some n, some m => some ((n : ℚ) + (m : ℚ) / (10 : ℚ) ^ f.length)
      | _, _ => none
    | _ => none
  match s.data with
  | '-' :: rest => (core ⟨rest⟩).map Neg.neg
  | _ => core s

/-- Lines 59–60: coerce a cell to a number, invalid values becoming 0. -/
def toNum : Cell → ℚ
  | .num q => q
  | .str s => (parseDecimal s).getD 0

/-- One prepared data-frame row after lines 54–63: year, family label and
the two numeric columns. -/
structure PRow where
  Jahr : ℤ
  Kategorie : String
  km : ℚ
  HM : ℚ
deriving DecidableEq

/-- Lines 54–63: parse the date (dropping unparseable rows), derive the
year, coerce the numeric columns, and assign the family label. -/
def prepare (records : List Rec) : List PRow :=
  records.filterMap fun r =>
    (parseYear r.Datum).map fun y => ⟨y, categorize r.Typ, toNum r.km, toNum r.HM⟩

/-- The groupby key of a prepared row, line 66. -/
def key (r : PRow) : ℤ × String := (r.Jahr, r.Kategorie)

/-- Sum of the `km` column over one group, line 67. -/
def sumKm (rows : List PRow) (k : ℤ × String) : ℚ :=
  ((rows.filter fun r => key r = k).map PRow.km).sum

/-- Sum of the `HM` column over one group, line 68. -/
def sumHM (rows : List PRow) (k : ℤ × String) : ℚ :=
  ((rows.filter fun r => key r = k).map PRow.HM).sum

/-- Insert into a sorted list, keeping earlier equal elements first. -/
def insertSorted (le : α → α → Bool) (a : α) : List α → List α
  | [] => [a]
  | b :: l => if le a b then a :: b :: l else b :: insertSorted le a l

/-- A deterministic stable comparison sort, modelling pandas
`sort_values` (and the ascending key order of `groupby`). -/
def sort_values (le : α → α → Bool) : List α → List α
  | [] => []
  | a :: l => insertSorted le a (sort_values le l)

/-- Ascending lexicographic order on group keys: `groupby` emits its
groups with keys sorted ascending. -/
def keyAsc (a b : ℤ × String) : Bool :=
  decide (a.1 < b.1) || (decide (a.1 = b.1) && decide (a.2 ≤ b.2))

/-- Line 66–69: the distinct group keys, in the ascending order `groupby`
emits them. -/
def groupKeys (rows : List PRow) : List (ℤ × String) :=
  sort_values keyAsc (rows.map key).dedup

/-- One summary row: year, family label, total km (rounded to 2 decimals,
line 72) and total HM (truncated to an integer, line 73). -/
structure SRow where
  Jahr : ℤ
  Kategorie : String
  km : ℚ
  HM : ℤ
deriving DecidableEq

/-- Line 76's comparison: `sort_values(by=['Jahr', 'km'],
ascending=[False, False])` — year descending, then total km descending. -/
def srowLe (a b : SRow) : Bool :=
  decide (b.Jahr < a.Jahr) || (decide (a.Jahr = b.Jahr) && decide (b.km ≤ a.km))

/-- Lines 66–76: group by (year, category), sum both numeric columns,
round/truncate them, and sort by year descending then km descending. -/
def rollup (rows : List PRow) : List SRow :=
  sort_values srowLe ((groupKeys rows).map fun k =>
    ⟨k.1, k.2, pyRound2 (sumKm rows k), qtrunc (sumHM rows k)⟩)

/-- What one dashboard rebuild did: whether the summary view was cleared
(and rewritten), and how many summary data rows were written. -/
structure DashReport where
  cleared : Bool
  rowsWritten : ℕ
deriving DecidableEq

/-- Lines 87–92: the fixed header block; `now` is the timestamp string of
line 90. -/
def header_block (now : String) : List (List Cell) :=
  [[.str "SPORT-DASHBOARD: JAHRESÜBERSICHT"],
   [.str "Einheit: Kilometer (km) / Höhenmeter (m)"],
   [.str "Stand:", .str now],
   []]

/-- Line 94: the summary table's column headers. -/
def table_header : List (List Cell) :=
  [[.str "Jahr", .str "Kategorie", .str "Gesamt KM", .str "Gesamt HM"]]

/-- Line 95: one summary row as a row of cells. -/
def srowCells (s : SRow) : List Cell :=
  [.num s.Jahr, .str s.Kategorie, .num s.km, .num s.HM]

/-- Lines 43–100 of `create_dashboard` from the read on: with zero data
records the function returns at line 49 without touching the dashboard
sheet; otherwise it builds the summary and replaces the dashboard sheet's
content (clear at line 84, write at line 98). -/
def create_dashboard (records : List Rec) (dashboard_prev : List (List Cell))
    (now : String) : List (List Cell) × DashReport :=
  if records.isEmpty then (dashboard_prev, ⟨false, 0⟩)
  else
    let summary := rollup (prepare records)
    (header_block now ++ table_header ++ summary.map srowCells,
     ⟨true, summary.length⟩)

end dashboard

namespace dashboard

theorem insertSorted_perm (le : α → α → Bool) (a : α) (l : List α) :
    List.Perm (insertSorted le a l) (a :: l) := by
  induction l with
  | nil => simp [insertSorted]
  | cons b l ih =>
    by_cases h : le a b
    · simp [insertSorted, h]
    · simp only [insertSorted, h, if_false]
      exact (ih.cons b).trans (List.Perm.swap a b l)

theorem sort_values_perm (le : α → α → Bool) (l : List α) :
    List.Perm (sort_values le l) l := by
  induction l with
  | nil => simp [sort_values]
  | cons a l ih =>
    exact (insertSorted_perm le a (sort_values le l)).trans (ih.cons a)

theorem mem_sort_values (le : α → α → Bool) (l : List α) (a : α) :
    a ∈ sort_values le l ↔ a ∈ l :=
  (sort_values_perm le l).mem_iff

theorem pairwise_insertSorted (le : α → α → Bool)
    (htrans : ∀ x y z, le x y = true → le y z = true → le x z = true)
    (htot : ∀ x y, le x y = true ∨ le y x = true)
    (a : α) (l : List α) (h : l.Pairwise (fun x y => le x y = true)) :
    (insertSorted le a l).Pairwise (fun x y => le x y = true) := by
  induction l with
  | nil => simp [insertSorted]
  | cons b l ih =>
    rcases List.pairwise_cons.mp h with ⟨hb, hl⟩
    by_cases hab : le a b
    · simp only [insertSorted, hab, if_true]
      refine List.pairwise_cons.mpr ⟨?_, h⟩
      intro x hx
      rcases List.mem_cons.mp hx with rfl | hx
      · exact hab
      · exact htrans a b x hab (hb x hx)
    · have hba : le b a = true := (htot a b).resolve_left hab
      simp only [insertSorted, hab, if_false]
      refine List.pairwise_cons.mpr ⟨?_, ih hl⟩
      intro x hx
      rcases List.mem_cons.mp ((insertSorted_perm le a l).mem_iff.mp hx) with rfl | hx
      · exact hba
      · exact hb x hx

theorem sort_values_sorted (le : α → α → Bool)
    (htrans : ∀ x y z, le x y = true → le y z = true → le x z = true)
    (htot : ∀ x y, le x y = true ∨ le y x = true) (l : List α) :
    (sort_values le l).Pairwise (fun x y => le x y = true) := by
  induction l with
  | nil => simp [sort_values]
  | cons a l ih => exact pairwise_insertSorted le htrans htot a _ ih

theorem srowLe_trans (x y z : SRow) :
    srowLe x y = true → srowLe y z = true → srowLe x z = true := by
  simp only [srowLe, Bool.or_eq_true, Bool.and_eq_true, decide_eq_true_eq]
  rintro (h1 | ⟨h1, h1'⟩) (h2 | ⟨h2, h2'⟩)
  · exact Or.inl (h2.trans h1)
  · exact Or.inl (h2 ▸ h1)
  · exact Or.inl (h1 ▸ h2)
  · exact Or.inr ⟨h1.trans h2, h2'.trans h1'⟩

theorem srowLe_total (x y : SRow) :
    srowLe x y = true ∨ srowLe y x = true := by
  simp only [srowLe, Bool.or_eq_true, Bool.and_eq_true, decide_eq_true_eq]
  rcases lt_trichotomy x.Jahr y.Jahr with h | h | h
  · exact Or.inr (Or.inl h)
  · rcases le_total y.km x.km with hk | hk
    · exact Or.inl (Or.inr ⟨h, hk⟩)
    · exact Or.inr (Or.inr ⟨h.symm, hk⟩)
  · exact Or.inl (Or.inl h)

/-- Every value of `CATEGORY_MAP` is a nonempty label. -/
theorem CATEGORY_MAP_values_nonempty :
    ∀ p ∈ CATEGORY_MAP, p.2 ≠ "" := by decide

theorem lookup_mem_values (k v : String) :
    ∀ l : List (String × String), l.lookup k = some v → ∃ p ∈ l, p.2 = v := by
  intro l
  induction l with
  | nil => intro h; simp [List.lookup] at h
  | cons p rest ih =>
    obtain ⟨pk, pv⟩ := p
    intro h
    by_cases hq : (k == pk) = true
    · simp only [List.lookup, hq] at h
      exact ⟨(pk, pv), List.mem_cons_self _ _, (Option.some_inj.mp h)⟩
    · simp only [List.lookup, Bool.not_eq_true] at hq ⊢
      rw [List.lookup] at h
      simp only [hq] at h
      obtain ⟨p', hmem, hv⟩ := ih h
      exact ⟨p', List.mem_cons_of_mem _ hmem, hv⟩

end dashboard

namespace sync_garmin

/-- The spec's dedup key columns of a stored row: start-timestamp column
and name column. -/
def rowKeyPair (row : List Cell) : List Cell := row.take 2

end sync_garmin

/-- A header-only store for the concrete runs below. -/
def exStore : List (List Cell) := [[Cell.str "Datum", Cell.str "Name"]]

def C1_act : sync_garmin.Activity :=
  ⟨"2025-08-01T07:00:00", some "Tempo Run", some "running", 10000, 3000, 155, 175, 600, 170, 20, false⟩

def C10_act1 : sync_garmin.Activity :=
  ⟨"2025-07-07T08:00:00", some "Morning Run", some "running", 5000, 1500, 140, 160, 350, 168, 12, false⟩

def C10_act2 : sync_garmin.Activity :=
  ⟨"2025-07-07T18:30:00", some "Evening Run", some "trail_running", 8000, 2400, 150, 170, 500, 166, 55, false⟩

/-- C1 (counterexample): fetching the same activity twice in one run —
identical start timestamp and name — against a header-only store appends
both rows: the engine appends a row whose (start-timestamp, name) pair
already exists among the stored rows, and the final table's key pairs are
not unique. -/
theorem C1_counterexample :
    (sync_garmin.main exStore [C1_act, C1_act] true).new_entries = 2 ∧
    ¬ List.Pairwise (fun r r' => sync_garmin.rowKeyPair r ≠ sync_garmin.rowKeyPair r')
        (sync_garmin.main exStore [C1_act, C1_act] true).sheet := by decide

/-- C1 (amended): the dedup key is the calendar date (first 10 characters
of the start timestamp) alone, checked against the dates loaded from the
store at the start of the run: every row the run appends is the row of a
fetched activity whose date was not among the stored dates when the run
began.  (Within one run the index is not extended, so duplicate
(date, name) pairs can still be appended.) -/
theorem C1_amended_date_dedup (sheet : List (List Cell))
    (acts : List sync_garmin.Activity) (r : List Cell)
    (h : r ∈ (sync_garmin.main sheet acts true).sheet.drop sheet.length) :
    ∃ a, a ∈ acts ∧ r = sync_garmin.mkRow a ∧
      sync_garmin.activityDate a ∉ sync_garmin.existing_dates sheet := by
  by_cases hrun : acts.filter sync_garmin.isRunningActivity = []
  · simp only [sync_garmin.main, hrun, List.isEmpty_nil, if_true,
      List.drop_length, List.not_mem_nil] at h
  · rw [sync_garmin.main_eq _ _ _ hrun] at h
    simp only [if_true, List.drop_left] at h
    obtain ⟨a, ha, rfl⟩ := List.mem_map.mp h
    have hmem := List.mem_of_mem_filter ha
    have hkeep := List.of_mem_filter ha
    simp only [sync_garmin.keepB, Bool.and_eq_true, Bool.not_eq_true',
      decide_eq_false_iff_not] at hkeep
    exact ⟨a, List.mem_of_mem_filter hmem, rfl, hkeep.1⟩

/-- Witness for `C1_amended_date_dedup` at a concrete run. -/
theorem C1_amended_witness :
    ∃ a, a ∈ [C1_act] ∧ sync_garmin.mkRow C1_act = sync_garmin.mkRow a ∧
      sync_garmin.activityDate a ∉ sync_garmin.existing_dates exStore :=
  C1_amended_date_dedup exStore [C1_act] (sync_garmin.mkRow C1_act) (by decide)

def C3_act : sync_garmin.Activity :=
  ⟨"2025-09-01T09:00:00", some "Parkrun", some "running", 5000, 1500, 150, 170, 400, 170, 0, false⟩

/-- C3 (counterexample): for distance 5000 m and duration 1500 s the pace
cell of the assembled row is the number 5 (min/km), not the string
"5:00", and no speed value 12.0 appears anywhere in the row — the row
derives no speed at all. -/
theorem C3_counterexample :
    (sync_garmin.mkRow C3_act)[4]? = some (Cell.num 5) ∧
    (sync_garmin.mkRow C3_act)[4]? ≠ some (Cell.str "5:00") ∧
    Cell.num 12 ∉ sync_garmin.mkRow C3_act := by decide

/-- C3 (amended): pace is a number, not an "M:SS" string: it is 0 when
distance or duration is zero or missing, and otherwise
(duration ÷ distance-in-km) ÷ 60 rounded to 2 decimals (min/km) —
distance 0, duration 600 gives 0, and distance 5000, duration 1500 gives
5.  No speed is derived. -/
theorem C3_pace_properties :
    (∀ dm ds : ℚ, dm = 0 ∨ ds = 0 → sync_garmin.format_pace dm ds = 0) ∧
    sync_garmin.format_pace 0 600 = 0 ∧
    sync_garmin.format_pace 5000 1500 = 5 ∧
    (∀ dm ds : ℚ, dm ≠ 0 → ds ≠ 0 →
      sync_garmin.format_pace dm ds = pyRound2 (ds / (dm / 1000) / 60)) := by
  refine ⟨?_, by decide, by decide, ?_⟩
  · intro dm ds h
    unfold sync_garmin.format_pace
    rw [if_pos h]
  · intro dm ds h1 h2
    unfold sync_garmin.format_pace
    rw [if_neg (not_or.mpr ⟨h1, h2⟩)]

/-- Witness for `C3_pace_properties` at concrete inputs. -/
theorem C3_pace_witness :
    sync_garmin.format_pace 0 600 = 0 ∧
    sync_garmin.format_pace 4000 1200 = pyRound2 (1200 / ((4000 : ℚ) / 1000) / 60) :=
  ⟨C3_pace_properties.1 0 600 (Or.inl rfl),
   C3_pace_properties.2.2.2 4000 1200 (by decide) (by decide)⟩

/-- C4: categorization is total — for every kind string the lower-cased
lookup yields a non-empty label, "Other" for every unmapped kind;
"road_biking" maps to "Cycling" and "underwater_hockey" to "Other". -/
theorem C4_categorize_total :
    (∀ kind : String, dashboard.categorize kind ≠ "") ∧
    (∀ kind : String, dashboard.CATEGORY_MAP.lookup (strLower kind) = none →
      dashboard.categorize kind = "Other") ∧
    dashboard.categorize "road_biking" = "Cycling" ∧
    dashboard.categorize "underwater_hockey" = "Other" := by
  refine ⟨?_, ?_, by decide, by decide⟩
  · intro kind
    unfold dashboard.categorize
    cases hl : dashboard.CATEGORY_MAP.lookup (strLower kind) with
    | none => simp only [Option.getD_none]; decide
    | some v =>
      simp only [Option.getD_some]
      obtain ⟨p, hp, hv⟩ := dashboard.lookup_mem_values (strLower kind) v _ hl
      exact hv ▸ dashboard.CATEGORY_MAP_values_nonempty p hp
  · intro kind h
    simp [dashboard.categorize, h]

/-- Witness for `C4_categorize_total` at concrete kinds. -/
theorem C4_witness :
    dashboard.categorize "underwater_hockey" = "Other" ∧
    dashboard.categorize "cycling" ≠ "" :=
  ⟨C4_categorize_total.2.1 "underwater_hockey" (by decide),
   C4_categorize_total.1 "cycling"⟩

/-- C6: with zero data records the rollup returns a report with zero rows
written, does not clear or write the summary view, and leaves the prior
summary content unchanged. -/
theorem C6_empty_table_guard (dashboard_prev : List (List Cell)) (now : String) :
    dashboard.create_dashboard [] dashboard_prev now =
      (dashboard_prev, ⟨false, 0⟩) := rfl

def C7_store : List (List Cell) :=
  [[Cell.str "Datum", Cell.str "Name"], [Cell.str "2025-05-05", Cell.str "Old Run"]]

def C7_act : sync_garmin.Activity :=
  ⟨"2025-05-05T10:00:00", some "New Run", some "running", 3000, 900, 140, 150, 200, 160, 5, false⟩

/-- C7 (counterexample): when the store read fails (`readOk = false`) the
run does not stop: it proceeds as if the store were empty, appending an
activity whose date is already among the stored rows. -/
theorem C7_counterexample :
    sync_garmin.activityDate C7_act ∈ sync_garmin.existing_dates C7_store ∧
    sync_garmin.main C7_store [C7_act] false =
      ⟨C7_store ++ [sync_garmin.mkRow C7_act], 1, []⟩ := by decide

/-- C7 (amended): a store read failure is not fatal — the engine logs a
warning, treats the dedup index as empty, and continues: every fetched
running activity that does not raise is appended (possibly duplicating
stored rows), none is skipped as a duplicate. -/
theorem C7_amended_read_failure_continues (sheet : List (List Cell))
    (acts : List sync_garmin.Activity)
    (hok : ∀ a ∈ acts, a.extractRaises = false) :
    (sync_garmin.main sheet acts false).sheet =
      sheet ++ (acts.filter sync_garmin.isRunningActivity).map sync_garmin.mkRow ∧
    (sync_garmin.main sheet acts false).new_entries =
      (acts.filter sync_garmin.isRunningActivity).length ∧
    (sync_garmin.main sheet acts false).errors = [] := by
  by_cases hrun : acts.filter sync_garmin.isRunningActivity = []
  · simp [sync_garmin.main, hrun]
  · have hkeep : (acts.filter sync_garmin.isRunningActivity).filter (sync_garmin.keepB []) =
        acts.filter sync_garmin.isRunningActivity := by
      rw [List.filter_eq_self]
      intro a ha
      have : a.extractRaises = false := hok a (List.mem_of_mem_filter ha)
      simp [sync_garmin.keepB, this]
    have herr : (acts.filter sync_garmin.isRunningActivity).filter (sync_garmin.errB []) = [] := by
      rw [List.filter_eq_nil_iff]
      intro a ha
      have : a.extractRaises = false := hok a (List.mem_of_mem_filter ha)
      simp [sync_garmin.errB, this]
    rw [sync_garmin.main_eq _ _ _ hrun]
    simp only [show (if false = true then sync_garmin.existing_dates sheet else []) = []
        from rfl, hkeep, herr]
    exact ⟨trivial, trivial, trivial⟩

/-- Witness for `C7_amended_read_failure_continues` at a concrete run. -/
theorem C7_amended_witness :
    (sync_garmin.main C7_store [C7_act] false).sheet =
      C7_store ++ ([C7_act].filter sync_garmin.isRunningActivity).map sync_garmin.mkRow ∧
    (sync_garmin.main C7_store [C7_act] false).new_entries =
      ([C7_act].filter sync_garmin.isRunningActivity).length ∧
    (sync_garmin.main C7_store [C7_act] false).errors = [] :=
  C7_amended_read_failure_continues C7_store [C7_act] (by decide)

/-- C10: the dedup index is fixed before the loop and never extended
while rows are appended: two fetched activities sharing the calendar date
2025-07-07 — a date not present in the store — both pass the duplicate
check and both rows are appended in the same run. -/
theorem C10_same_day_both_appended :
    sync_garmin.activityDate C10_act1 = sync_garmin.activityDate C10_act2 ∧
    sync_garmin.existing_dates exStore = [] ∧
    (sync_garmin.main exStore [C10_act1, C10_act2] true).new_entries = 2 ∧
    (sync_garmin.main exStore [C10_act1, C10_act2] true).sheet =
      exStore ++ [sync_garmin.mkRow C10_act1, sync_garmin.mkRow C10_act2] := by decide

namespace sync_garmin

theorem main_true_eq (sheet : List (List Cell)) (acts : List Activity)
    (hrun : acts.filter isRunningActivity ≠ []) :
    main sheet acts true =
      ⟨sheet ++ ((acts.filter isRunningActivity).filter
          (keepB (existing_dates sheet))).map mkRow,
       ((acts.filter isRunningActivity).filter (keepB (existing_dates sheet))).length,
       (acts.filter isRunningActivity).filter (errB (existing_dates sheet))⟩ := by
  rw [main_eq _ _ _ hrun]
  rfl

theorem existing_dates_append (sheet rows : List (List Cell)) (h : sheet ≠ []) :
    existing_dates (sheet ++ rows) =
      existing_dates sheet ++ rows.filterMap rowDate := by
  unfold existing_dates
  rw [List.drop_append_of_le_length (List.length_pos.mpr h), List.filterMap_append]

theorem rowDate_mkRow (a : Activity) (h : activityDate a ≠ "") :
    rowDate (mkRow a) = some (activityDate a) := by
  simp [rowDate, mkRow, cellStr, h]

end sync_garmin

def C8_bad : sync_garmin.Activity :=
  ⟨"2025-07-08T09:00:00", some "Broken Run", some "treadmill_running", 6000, 1800, 0, 0, 0, 0, 0, true⟩

/-- C8: per-activity failures are isolated — in a batch of running
activities with fresh dates in which exactly the middle activity `k`
raises during field extraction, the run appends rows for all the others,
logs exactly one error entry (for `k`), and does not abort. -/
theorem C8_partial_failure_isolation (sheet : List (List Cell))
    (pre post : List sync_garmin.Activity) (k : sync_garmin.Activity)
    (hrun : ∀ a ∈ pre ++ k :: post, sync_garmin.isRunningActivity a = true)
    (hfresh : ∀ a ∈ pre ++ k :: post,
      sync_garmin.activityDate a ∉ sync_garmin.existing_dates sheet)
    (hgood : ∀ a ∈ pre ++ post, a.extractRaises = false)
    (hbad : k.extractRaises = true) :
    sync_garmin.main sheet (pre ++ k :: post) true =
      ⟨sheet ++ (pre ++ post).map sync_garmin.mkRow,
       (pre ++ post).length, [k]⟩ := by
  have hfilter : (pre ++ k :: post).filter sync_garmin.isRunningActivity =
      pre ++ k :: post := List.filter_eq_self.mpr hrun
  have hne : (pre ++ k :: post).filter sync_garmin.isRunningActivity ≠ [] := by
    rw [hfilter]; simp
  have hpre : pre.filter (sync_garmin.keepB (sync_garmin.existing_dates sheet)) = pre :=
    List.filter_eq_self.mpr fun a ha => by
      have h1 := hgood a (List.mem_append_left post ha)
      have h2 := hfresh a (List.mem_append_left (k :: post) ha)
      simp [sync_garmin.keepB, h1, h2]
  have hpost : post.filter (sync_garmin.keepB (sync_garmin.existing_dates sheet)) = post :=
    List.filter_eq_self.mpr fun a ha => by
      have h1 := hgood a (List.mem_append_right pre ha)
      have h2 := hfresh a (List.mem_append_right pre (List.mem_cons_of_mem k ha))
      simp [sync_garmin.keepB, h1, h2]
  have hepre : pre.filter (sync_garmin.errB (sync_garmin.existing_dates sheet)) = [] :=
    List.filter_eq_nil_iff.mpr fun a ha => by
      have h1 := hgood a (List.mem_append_left post ha)
      simp [sync_garmin.errB, h1]
  have hepost : post.filter (sync_garmin.errB (sync_garmin.existing_dates sheet)) = [] :=
    List.filter_eq_nil_iff.mpr fun a ha => by
      have h1 := hgood a (List.mem_append_right pre ha)
      simp [sync_garmin.errB, h1]
  have hkk : sync_garmin.keepB (sync_garmin.existing_dates sheet) k = false := by
    simp [sync_garmin.keepB, hbad]
  have hek : sync_garmin.errB (sync_garmin.existing_dates sheet) k = true := by
    have h2 := hfresh k (List.mem_append_right pre (List.mem_cons_self k post))
    simp [sync_garmin.errB, hbad, h2]
  rw [sync_garmin.main_true_eq _ _ hne, hfilter]
  simp [List.filter_append, List.filter_cons, hkk, hek, hpre, hpost, hepre, hepost]

/-- Witness for `C8_partial_failure_isolation` at a concrete batch of
three activities whose middle one raises. -/
theorem C8_witness :
    sync_garmin.main exStore ([C10_act1] ++ C8_bad :: [C10_act2]) true =
      ⟨exStore ++ ([C10_act1] ++ [C10_act2]).map sync_garmin.mkRow,
       ([C10_act1] ++ [C10_act2]).length, [C8_bad]⟩ :=
  C8_partial_failure_isolation exStore [C10_act1] [C10_act2] C8_bad
    (by decide) (by decide) (by decide) (by decide)

/-- C9: every row the run appends carries, in its activity-kind column, a
string whose lower-casing is one of the three running kinds — activities
of any other kind are filtered out before deduplication — and a fetch
window with no running activity appends nothing at all. -/
theorem C9_only_running_kinds (sheet : List (List Cell))
    (acts : List sync_garmin.Activity) (readOk : Bool) :
    (∀ r ∈ (sync_garmin.main sheet acts readOk).sheet.drop sheet.length,
      ∃ t, r[10]? = some (Cell.str t) ∧
        sync_garmin.running_types.contains (strLower t) = true) ∧
    (acts.filter sync_garmin.isRunningActivity = [] →
      sync_garmin.main sheet acts readOk = ⟨sheet, 0, []⟩) := by
  constructor
  · intro r hr
    by_cases hrun : acts.filter sync_garmin.isRunningActivity = []
    · simp [sync_garmin.main, hrun, List.drop_length] at hr
    · rw [sync_garmin.main_eq _ _ _ hrun] at hr
      simp only [List.drop_left] at hr
      obtain ⟨a, ha, rfl⟩ := List.mem_map.mp hr
      have hrunning : sync_garmin.isRunningActivity a = true :=
        List.of_mem_filter (List.mem_of_mem_filter ha)
      cases htk : a.typeKey with
      | none =>
        rw [sync_garmin.isRunningActivity, htk] at hrunning
        exact absurd hrunning (by decide)
      | some t =>
        refine ⟨t, ?_, ?_⟩
        · simp [sync_garmin.mkRow, htk]
        · rw [sync_garmin.isRunningActivity, htk] at hrunning
          simpa using hrunning
  · intro hrun
    simp [sync_garmin.main, hrun]

/-- Witness for `C9_only_running_kinds` at a concrete run and at an empty
window. -/
theorem C9_witness :
    (∃ t, (sync_garmin.mkRow C10_act2)[10]? = some (Cell.str t) ∧
      sync_garmin.running_types.contains (strLower t) = true) ∧
    sync_garmin.main exStore [] true = ⟨exStore, 0, []⟩ :=
  ⟨(C9_only_running_kinds exStore [C10_act1, C10_act2] true).1
      (sync_garmin.mkRow C10_act2) (by decide),
   (C9_only_running_kinds exStore [] true).2 (by decide)⟩

def C2_empty_date_act : sync_garmin.Activity :=
  ⟨"", some "Ghost Run", some "running", 5000, 1500, 140, 160, 350, 168, 12, false⟩

/-- C2 (counterexample): an activity whose start timestamp is empty (its
date key is the empty string, which the dedup index never records) is
re-appended by a second run against the unchanged source and store: the
second run appends 1 row, not 0. -/
theorem C2_counterexample :
    (sync_garmin.main
      (sync_garmin.main exStore [C2_empty_date_act] true).sheet
      [C2_empty_date_act] true).new_entries = 1 := by decide

/-- C2 (amended): provided the store keeps its header row (is nonempty),
no fetched activity raises during extraction, and every fetched activity
has a nonempty date key, a second run against the unchanged source and
store appends zero rows, changes nothing and logs no error — every
fetched running activity's date is by then in the dedup index, so it is
skipped as a duplicate. -/
theorem C2_idempotent (sheet : List (List Cell)) (acts : List sync_garmin.Activity)
    (hhdr : sheet ≠ [])
    (hok : ∀ a ∈ acts, a.extractRaises = false)
    (hdate : ∀ a ∈ acts, sync_garmin.activityDate a ≠ "") :
    sync_garmin.main (sync_garmin.main sheet acts true).sheet acts true =
      ⟨(sync_garmin.main sheet acts true).sheet, 0, []⟩ ∧
    ∀ a ∈ acts.filter sync_garmin.isRunningActivity,
      sync_garmin.activityDate a ∈
        sync_garmin.existing_dates (sync_garmin.main sheet acts true).sheet := by
  by_cases hrun : acts.filter sync_garmin.isRunningActivity = []
  · have h1 : sync_garmin.main sheet acts true = ⟨sheet, 0, []⟩ := by
      simp [sync_garmin.main, hrun]
    rw [h1]
    exact ⟨h1, by rw [hrun]; simp⟩
  · have h1 := sync_garmin.main_true_eq sheet acts hrun
    have hsheet1 : (sync_garmin.main sheet acts true).sheet =
        sheet ++ ((acts.filter sync_garmin.isRunningActivity).filter
          (sync_garmin.keepB (sync_garmin.existing_dates sheet))).map sync_garmin.mkRow := by
      rw [h1]
    have hA : ∀ a ∈ acts.filter sync_garmin.isRunningActivity,
        sync_garmin.activityDate a ∈
          sync_garmin.existing_dates (sync_garmin.main sheet acts true).sheet := by
      intro a ha
      rw [hsheet1, sync_garmin.existing_dates_append _ _ hhdr]
      by_cases hmem : sync_garmin.activityDate a ∈ sync_garmin.existing_dates sheet
      · exact List.mem_append_left _ hmem
      · refine List.mem_append_right _ ?_
        have hk : sync_garmin.keepB (sync_garmin.existing_dates sheet) a = true := by
          simp [sync_garmin.keepB, hmem, hok a (List.mem_of_mem_filter ha)]
        refine List.mem_filterMap.mpr ⟨sync_garmin.mkRow a, ?_, ?_⟩
        · exact List.mem_map_of_mem _ (List.mem_filter.mpr ⟨ha, hk⟩)
        · exact sync_garmin.rowDate_mkRow a (hdate a (List.mem_of_mem_filter ha))
    refine ⟨?_, hA⟩
    have hkeep1 : (acts.filter sync_garmin.isRunningActivity).filter
        (sync_garmin.keepB (sync_garmin.existing_dates
          (sync_garmin.main sheet acts true).sheet)) = [] :=
      List.filter_eq_nil_iff.mpr fun a ha => by
        have := hA a ha
        simp [sync_garmin.keepB, this]
    have herr1 : (acts.filter sync_garmin.isRunningActivity).filter
        (sync_garmin.errB (sync_garmin.existing_dates
          (sync_garmin.main sheet acts true).sheet)) = [] :=
      List.filter_eq_nil_iff.mpr fun a ha => by
        have := hA a ha
        simp [sync_garmin.errB, this]
    rw [sync_garmin.main_true_eq _ acts hrun, hkeep1, herr1]
    simp

/-- Witness for `C2_idempotent` at a concrete run. -/
theorem C2_witness :
    sync_garmin.main (sync_garmin.main exStore [C10_act1] true).sheet [C10_act1] true =
      ⟨(sync_garmin.main exStore [C10_act1] true).sheet, 0, []⟩ ∧
    ∀ a ∈ [C10_act1].filter sync_garmin.isRunningActivity,
      sync_garmin.activityDate a ∈
        sync_garmin.existing_dates (sync_garmin.main exStore [C10_act1] true).sheet :=
  C2_idempotent exStore [C10_act1] (by decide) (by decide) (by decide)

def C5_records : List dashboard.Rec :=
  [⟨"2024-05-01", Cell.num 10, Cell.num 0, "cycling"⟩,
   ⟨"2024-06-02", Cell.num 5, Cell.num 0, "road_biking"⟩,
   ⟨"2023-04-03", Cell.num 3, Cell.num 0, "running"⟩]

/-- C5: the rollup groups rows by (year, family label) and sums the
distance and elevation columns per group — each summary row carries
exactly the rounded group sums, the groups are exactly the keys occurring
in the input, each exactly once — and the result is sorted by year
descending, then total km descending; on the claim's example input the
result is exactly [(2024, Cycling, 15, 0), (2023, Running, 3, 0)], the
2024 row first. -/
theorem C5_rollup_aggregation :
    dashboard.rollup (dashboard.prepare C5_records) =
      [⟨2024, "Cycling", 15, 0⟩, ⟨2023, "Running", 3, 0⟩] ∧
    (∀ rows : List dashboard.PRow,
      (dashboard.rollup rows).Pairwise (fun a b => dashboard.srowLe a b = true)) ∧
    (∀ rows : List dashboard.PRow, ∀ s ∈ dashboard.rollup rows,
      s.km = pyRound2 (dashboard.sumKm rows (s.Jahr, s.Kategorie)) ∧
      s.HM = qtrunc (dashboard.sumHM rows (s.Jahr, s.Kategorie))) ∧
    (∀ (rows : List dashboard.PRow) (k : ℤ × String),
      (∃ s ∈ dashboard.rollup rows, (s.Jahr, s.Kategorie) = k) ↔
        k ∈ rows.map dashboard.key) ∧
    (∀ rows : List dashboard.PRow,
      ((dashboard.rollup rows).map fun s => (s.Jahr, s.Kategorie)).Nodup) := by
  refine ⟨by decide, ?_, ?_, ?_, ?_⟩
  · intro rows
    exact dashboard.sort_values_sorted dashboard.srowLe dashboard.srowLe_trans
      dashboard.srowLe_total _
  · intro rows s hs
    rw [dashboard.rollup, dashboard.mem_sort_values] at hs
    obtain ⟨k, hk, rfl⟩ := List.mem_map.mp hs
    exact ⟨rfl, rfl⟩
  · intro rows k
    constructor
    · rintro ⟨s, hs, rfl⟩
      rw [dashboard.rollup, dashboard.mem_sort_values] at hs
      obtain ⟨k', hk', rfl⟩ := List.mem_map.mp hs
      rw [dashboard.groupKeys, dashboard.mem_sort_values, List.mem_dedup] at hk'
      exact hk'
    · intro hk
      have hk' : k ∈ dashboard.groupKeys rows := by
        rw [dashboard.groupKeys, dashboard.mem_sort_values, List.mem_dedup]
        exact hk
      refine ⟨⟨k.1, k.2, pyRound2 (dashboard.sumKm rows k),
        qtrunc (dashboard.sumHM rows k)⟩, ?_, rfl⟩
      rw [dashboard.rollup, dashboard.mem_sort_values]
      exact List.mem_map.mpr ⟨k, hk', rfl⟩
  · intro rows
    have hperm := (dashboard.sort_values_perm dashboard.srowLe
      ((dashboard.groupKeys rows).map fun k =>
        (⟨k.1, k.2, pyRound2 (dashboard.sumKm rows k),
          qtrunc (dashboard.sumHM rows k)⟩ : dashboard.SRow))).map
      (fun s => (s.Jahr, s.Kategorie))
    rw [dashboard.rollup]
    rw [(hperm.nodup_iff), List.map_map]
    have : ((fun s : dashboard.SRow => (s.Jahr, s.Kategorie)) ∘ fun k : ℤ × String =>
        (⟨k.1, k.2, pyRound2 (dashboard.sumKm rows k),
          qtrunc (dashboard.sumHM rows k)⟩ : dashboard.SRow)) = id := by
      funext k
      rfl
    rw [this, List.map_id, dashboard.groupKeys]
    exact ((dashboard.sort_values_perm dashboard.keyAsc _).nodup_iff).mpr
      (List.nodup_dedup _)

/-- Witness for `C5_rollup_aggregation` at the claim's example input. -/
theorem C5_witness :
    (⟨2024, "Cycling", 15, 0⟩ : dashboard.SRow).km =
      pyRound2 (dashboard.sumKm (dashboard.prepare C5_records) (2024, "Cycling")) ∧
    (⟨2024, "Cycling", 15, 0⟩ : dashboard.SRow).HM =
      qtrunc (dashboard.sumHM (dashboard.prepare C5_records) (2024, "Cycling")) :=
  C5_rollup_aggregation.2.2.1 (dashboard.prepare C5_records)
    ⟨2024, "Cycling", 15, 0⟩ (by decide)
